import Mathlib

/-!
Shallow embedding of the Cerebro job-distribution system.

Sources embedded here:
* `src/manager/queue.py` — the Redis-backed `JobQueue` (submit, dequeue,
  complete) together with its error taxonomy.
* `src/manager/server.py` — the worker-registry HTTP routes.
* `src/worker/worker.py` — the CLI worker loop (`CerebroWorker`).
* `src/worker/worker_engine.py` — the headless worker loop (`WorkerCore`).

Modelling conventions: wall-clock time (`time.time()`) is passed in as an
explicit rational `now`; the fresh id produced by `uuid.uuid4()` is passed in
as an explicit `jobId`; every Redis call that can raise `RedisError` receives
an explicit boolean fault flag (`true` = the call succeeds); an operation that
raises a Python exception is embedded as a function returning the store as it
stood at the raise point together with an `Except` error value.  Python dicts
whose contents the code treats opaquely are embedded as association lists of
strings.
-/

namespace Cerebro

/-- Dict entry type for payloads the queue treats opaquely. -/
abbrev JsonObj := List (String × String)

/-- Dict with possibly-null values, as produced by the register route merge. -/
abbrev MetaObj := List (String × Option String)

/-- One chat message of a job payload (`role`/`content` pair). -/
structure Message where
  role : String
  content : String
deriving DecidableEq, Repr

/-- Valid job statuses (`JobStatus` in `src/manager/queue.py`). -/
inductive JobStatus where
  | queued
  | processing
  | completed
  | failed
deriving DecidableEq, Repr

/-- In-memory representation of a job stored in Redis (`JobRecord`). -/
structure JobRecord where
  job_id : String
  status : JobStatus
  messages : List Message
  created_at : ℚ
  updated_at : ℚ
  metadata : Option JsonObj
  started_at : Option ℚ
  completed_at : Option ℚ
  result : Option JsonObj
  error : Option String
deriving DecidableEq, Repr

/-- Python value passed as the `messages` argument: either not a list at all
(`isinstance(messages, list)` is false) or an actual list of messages. -/
inductive MessagesArg where
  | notAList
  | ofList (ms : List Message)
deriving DecidableEq, Repr

/-- Error taxonomy of `src/manager/queue.py`.  `invalidInput` is the plain
`JobQueueError` raised at the validation site in `submit_job`;
`queueUnavailable` is the plain `JobQueueError` raised when a `RedisError` is
caught; `notFound` is `JobNotFound`; `invalidStatus` is `InvalidJobStatus`. -/
inductive QueueError where
  | invalidInput (msg : String)
  | queueUnavailable (msg : String)
  | notFound (msg : String)
  | invalidStatus (msg : String)
deriving DecidableEq, Repr

/-- Worker-registry record (spec section 3, `WorkerRecord`). -/
structure WorkerRecord where
  worker_id : String
  metadata : MetaObj
  registered_at : ℚ
deriving DecidableEq, Repr

/-- State of the Redis store the queue manipulates: one record key per job
(value plus the TTL it was written with), the pending list
(`cerebro:queue`, head first), the processing set (`cerebro:processing`), and
the worker-registry entries. -/
structure Store where
  jobs : List (String × JobRecord × ℕ)
  pending : List String
  processing : List String
  workers : List (String × WorkerRecord)
deriving DecidableEq, Repr

/-- Manager configuration fields used by the queue (`AppConfig`). -/
structure AppConfig where
  job_ttl_seconds : ℕ
  redis_block_timeout : ℤ
deriving DecidableEq, Repr

/-- Redis `SET` on a job key: replaces any value stored under the key. -/
def setJob (jobs : List (String × JobRecord × ℕ)) (k : String) (rec : JobRecord)
    (ttl : ℕ) : List (String × JobRecord × ℕ) :=
  jobs.filter (fun p => p.1 ≠ k) ++ [(k, rec, ttl)]

/-- Association-list read of a job key (first entry under the key). -/
def lookupL : List (String × JobRecord × ℕ) → String → Option JobRecord
  | [], _ => none
  | p :: tl, k => if p.1 = k then some p.2.1 else lookupL tl k

/-- Redis `GET` on a job key (`JobQueue._load_job`, successful call). -/
def lookupJob (st : Store) (k : String) : Option JobRecord :=
  lookupL st.jobs k

/-- Redis `SADD`: adds the member unless already present. -/
def saddList (l : List String) (x : String) : List String :=
  if x ∈ l then l else l ++ [x]

/-- Redis `SREM`: removes the member. -/
def sremList (l : List String) (x : String) : List String :=
  l.filter (fun y => y ≠ x)

/-- Predicate for the completion-status check in `JobQueue.complete_job`
(`status not in \x7bJobStatus.COMPLETED, JobStatus.FAILED\x7d`). -/
def isTerminalStatus : JobStatus → Bool
  | .completed => true
  | .failed => true
  | _ => false

/-- Embedding of `JobQueue.submit_job`.  Validation happens before any Redis
call; the record write (`SET` with TTL) and the pending-list append (`RPUSH`)
run in one Redis pipeline, so `pipelineOk = false` (a `RedisError` from the
pipeline) leaves the store unchanged and surfaces as the plain
`JobQueueError` raised at the except site. -/
def submit_job (cfg : AppConfig) (st : Store) (arg : MessagesArg)
    (metadata : Option JsonObj) (jobId : String) (now : ℚ) (pipelineOk : Bool) :
    Store × Except QueueError String :=
  match arg with
  | .notAList => (st, .error (.invalidInput "`messages` must be a non-empty list."))
  | .ofList [] => (st, .error (.invalidInput "`messages` must be a non-empty list."))
  | .ofList ms =>
    if pipelineOk then
      let record : JobRecord :=
        { job_id := jobId, status := .queued, messages := ms,
          created_at := now, updated_at := now, metadata := metadata,
          started_at := none, completed_at := none, result := none, error := none }
      ({ st with jobs := setJob st.jobs jobId record cfg.job_ttl_seconds,
                 pending := st.pending ++ [jobId] },
       .ok jobId)
    else
      (st, .error (.queueUnavailable "Failed to submit job"))

/-- Reduced job view returned by `JobQueue.get_next_job`: exactly the keys
`job_id`, `messages`, `metadata`. -/
structure JobView where
  job_id : String
  messages : List Message
  metadata : Option JsonObj
deriving DecidableEq, Repr

/-- Embedding of `JobQueue.get_next_job`.  `LPOP`/`BLPOP` both remove the head
of the pending list (the blocking variant only affects timing, which is not
modelled); `popOk`, `loadOk`, `saveOk` are the fault flags of the pop, the
record `GET`, and the record `SET`; a failing `SADD` (`saddOk = false`) is
swallowed with a warning. -/
def get_next_job (cfg : AppConfig) (st : Store) (now : ℚ)
    (popOk loadOk saveOk saddOk : Bool) : Store × Except QueueError (Option JobView) :=
  if popOk then
    match st.pending with
    | [] => (st, .ok none)
    | jid :: rest =>
      let st1 : Store := { st with pending := rest }
      if loadOk then
        match lookupJob st1 jid with
        | none => (st1, .ok none)
        | some job =>
          let job2 : JobRecord :=
            { job with status := .processing, started_at := some now, updated_at := now }
          if saveOk then
            let st2 : Store :=
              { st1 with jobs := setJob st1.jobs jid job2 cfg.job_ttl_seconds }
            let st3 : Store :=
              if saddOk then { st2 with processing := saddList st2.processing jid }
              else st2
            (st3, .ok (some { job_id := job2.job_id, messages := job2.messages,
                              metadata := job2.metadata }))
          else
            (st1, .error (.queueUnavailable "Failed to save job"))
      else
        (st1, .error (.queueUnavailable "Failed to load job"))
  else
    (st, .error (.queueUnavailable "Failed to fetch next job"))

/-- Embedding of `JobQueue.complete_job`.  The status check comes first (before
the record is loaded); `loadOk`/`saveOk` are the fault flags of the record
`GET`/`SET`; a failing `SREM` (`sremOk = false`) is swallowed with a
warning. -/
def complete_job (cfg : AppConfig) (st : Store) (jid : String) (status : JobStatus)
    (result : Option JsonObj) (err : Option String) (now : ℚ)
    (loadOk saveOk sremOk : Bool) : Store × Except QueueError JobRecord :=
  if isTerminalStatus status then
    if loadOk then
      match lookupJob st jid with
      | none => (st, .error (.notFound ("Job " ++ jid ++ " not found")))
      | some job =>
        let job2 : JobRecord :=
          { job with status := status, completed_at := some now, updated_at := now,
                     result := result, error := err }
        if saveOk then
          let st2 : Store := { st with jobs := setJob st.jobs jid job2 cfg.job_ttl_seconds }
          let st3 : Store :=
            if sremOk then { st2 with processing := sremList st2.processing jid }
            else st2
          (st3, .ok job2)
        else
          (st, .error (.queueUnavailable "Failed to save job"))
    else
      (st, .error (.queueUnavailable "Failed to load job"))
  else
    (st, .error (.invalidStatus "Completion requires completed or failed status."))

/-- Outcome of the nvidia-smi measurement seen by `_can_use_gpu` (both in
`src/worker/worker.py` and `src/worker/worker_engine.py`): the subprocess can
fail (tool missing or nonzero exit, the two caught exception classes), the
output can fail to parse as floats (`ValueError`), or it parses to a list of
per-GPU utilization samples. -/
inductive GpuReading where
  | unavailable
  | unparseable
  | values (vs : List ℚ)
deriving DecidableEq, Repr

/-- Embedding of the shared body of `_can_use_gpu`: measurement failure and an
empty sample list allow polling; otherwise polling is allowed exactly when the
maximum sample does not exceed the threshold. -/
def canUseGpu (r : GpuReading) (threshold : ℚ) : Bool :=
  match r with
  | .unavailable => true
  | .unparseable => true
  | .values [] => true
  | .values (v :: vs) => !(decide (vs.foldl max v > threshold))

/-- Job payload as decoded from the fetch response body: the dict may lack a
`job_id` key (or hold a falsy one) and its `messages` value may be missing or
not a list. -/
structure FetchedJob where
  jobId : Option String
  messages : MessagesArg
deriving DecidableEq, Repr

/-- Python truthiness of the `job_id` value (`if not job_id`). -/
def truthyId : Option String → Option String
  | none => none
  | some s => if s = "" then none else some s

/-- Body of an HTTP-successful response from the model backend, as consumed by
`_parse_ollama_response`: undecodable JSON, a decoded dict without a `message`
key, or a decoded dict with one (which may additionally carry an `error`
entry, since the loop inspects the result dict for that key). -/
inductive OllamaBody where
  | badJson
  | noMessageKey
  | withMessage (message : JsonObj) (errVal : Option String)
deriving DecidableEq, Repr

/-- Outcome of the single backend call in `_process_job`: a
`RequestException` (network failure, or a non-2xx status raised by
`raise_for_status`) carrying its diagnostic string, or an HTTP-successful
response with a body. -/
inductive BackendResult where
  | reqError (msg : String)
  | ok (body : OllamaBody)
deriving DecidableEq, Repr

/-- Result dict returned by `_process_job` when it returns one: either the
explicitly-built error payload (a dict whose only entry is `error`) or the
parsed backend response dict. -/
inductive ProcResult where
  | errDict (msg : String)
  | data (message : JsonObj) (errVal : Option String)
deriving DecidableEq, Repr

/-- Embedding of `_process_job` (identical in `worker.py` and
`worker_engine.py`): a missing/empty `messages` list yields `None`; a backend
`RequestException` yields the dict with `error` set to the exception string; a
malformed backend body yields the fixed error dict; otherwise the parsed
response dict is returned. -/
def processJob (job : FetchedJob) (b : BackendResult) : Option ProcResult :=
  match job.messages with
  | .notAList => none
  | .ofList [] => none
  | .ofList (_ :: _) =>
    match b with
    | .reqError msg => some (.errDict msg)
    | .ok .badJson => some (.errDict "Malformed response from Ollama.")
    | .ok .noMessageKey => some (.errDict "Malformed response from Ollama.")
    | .ok (.withMessage m e) => some (.data m e)

/-- Value of the `error` key of a result dict, if present. -/
def getErrorVal : ProcResult → Option String
  | .errDict msg => some msg
  | .data _ e => e

/-- Truthy value of the `error` key (`result.get("error")` used as a
condition): present and a nonempty string. -/
def truthyError (r : ProcResult) : Option String :=
  match getErrorVal r with
  | none => none
  | some e => if e = "" then none else some e

/-- Observable outcome of one iteration of the worker loop body, after the
pause/stop checks: either a sleep of one poll interval with no job handled
(GPU busy / no job / malformed payload), or exactly one report call. -/
inductive IterResult where
  | gpuBusy (sleep : ℚ)
  | idle (sleep : ℚ)
  | malformed (sleep : ℚ)
  | reportFailure (jobId : String) (msg : String)
  | reportSuccess (jobId : String) (result : ProcResult)
deriving DecidableEq, Repr

/-- Embedding of one iteration of `WorkerCore._loop`
(`src/worker/worker_engine.py`): admission check guarded by `check_gpu`,
fetch, `job_id` truthiness check, `_process_job`, then the dispatch on the
result — `None` and results with a truthy `error` entry go to
`_report_failure`, everything else to `_report_success`. -/
def loopIterCore (checkGpu : Bool) (threshold pollInterval : ℚ) (gpu : GpuReading)
    (fetched : Option FetchedJob) (b : BackendResult) : IterResult :=
  if checkGpu && !(canUseGpu gpu threshold) then
    .gpuBusy pollInterval
  else
    match fetched with
    | none => .idle pollInterval
    | some job =>
      match truthyId job.jobId with
      | none => .malformed pollInterval
      | some jid =>
        match processJob job b with
        | none => .reportFailure jid "Job processing failed without result."
        | some r =>
          match truthyError r with
          | some e => .reportFailure jid e
          | none => .reportSuccess jid r

/-- Embedding of one iteration of `CerebroWorker.run` (`src/worker/worker.py`):
same shape as `WorkerCore._loop` but the admission check is unconditional and
the dispatch does not inspect the result for an `error` entry — every
non-`None` result goes to `_report_success`. -/
def loopIterCLI (threshold pollInterval : ℚ) (gpu : GpuReading)
    (fetched : Option FetchedJob) (b : BackendResult) : IterResult :=
  if !(canUseGpu gpu threshold) then
    .gpuBusy pollInterval
  else
    match fetched with
    | none => .idle pollInterval
    | some job =>
      match truthyId job.jobId with
      | none => .malformed pollInterval
      | some jid =>
        match processJob job b with
        | none => .reportFailure jid "Job processing failed without result."
        | some r => .reportSuccess jid r

/-- Outcome of one fetch attempt as seen by `_fetch_job_with_retry`: either
`_fetch_job` returns (a job dict, or `None` for 204/undecodable body), or it
raises a `RequestException`. -/
inductive FetchOutcome where
  | ok (j : Option FetchedJob)
  | netErr (msg : String)
deriving DecidableEq, Repr

/-- Embedding of the `_fetch_job_with_retry` loop (identical backoff logic in
`worker.py` and `worker_engine.py`), driven by the list of outcomes of the
successive attempts; the list ending corresponds to `stop_event` being set
(cancellation) before a further attempt.  Returns the inter-attempt delays
slept, the number of attempts issued, and the fetch result (`none` =
cancelled). -/
def fetchRetrySteps (outcomes : List FetchOutcome) (backoff maxBackoff : ℚ) :
    List ℚ × ℕ × Option (Option FetchedJob) :=
  match outcomes with
  | [] => ([], 0, none)
  | .ok j :: _ => ([], 1, some j)
  | .netErr _ :: rest =>
    let r := fetchRetrySteps rest (min (backoff * 2) maxBackoff) maxBackoff
    (backoff :: r.1, r.2.1 + 1, r.2.2)

/-- Entry point of the retry loop: `backoff` starts at 1.0. -/
def fetchJobWithRetry (outcomes : List FetchOutcome) (maxBackoff : ℚ) :
    List ℚ × ℕ × Option (Option FetchedJob) :=
  fetchRetrySteps outcomes 1 maxBackoff

/-- Closed form of the delay sequence the retry loop produces for a given
number of consecutive failures: starts at the given backoff, doubling capped
at the maximum. -/
def delaysFrom : ℕ → ℚ → ℚ → List ℚ
  | 0, _, _ => []
  | k + 1, b, m => b :: delaysFrom k (min (b * 2) m) m

/-- Store write for one worker-registry key: replaces any entry under the
key, like a Redis `SET` on the per-worker key. -/
def setWorker (ws : List (String × WorkerRecord)) (k : String) (w : WorkerRecord) :
    List (String × WorkerRecord) :=
  ws.filter (fun p => p.1 ≠ k) ++ [(k, w)]

/-- Store delete for one worker-registry key. -/
def eraseWorker (ws : List (String × WorkerRecord)) (k : String) :
    List (String × WorkerRecord) :=
  ws.filter (fun p => p.1 ≠ k)

/-- Modelled from the spec: `JobQueue.register_worker` is absent from
`src/manager/queue.py` (only its caller `register_worker_route` in
`src/manager/server.py` and `test_worker_registration` are under src).  Spec
sections 3, 4.1 and 6: simple key bookkeeping writing one `WorkerRecord`
(`worker_id`, `metadata`, `registered_at`) per worker key, with store failure
surfacing as a `JobQueueError`. -/
def register_worker (st : Store) (workerId : String) (metadata : MetaObj)
    (now : ℚ) (ok : Bool) : Store × Except QueueError Unit :=
  if ok then
    let record : WorkerRecord :=
      { worker_id := workerId, metadata := metadata, registered_at := now }
    ({ st with workers := setWorker st.workers workerId record }, .ok ())
  else
    (st, .error (.queueUnavailable "Failed to register worker"))

/-- Modelled from the spec: `JobQueue.deregister_worker` is absent from
`src/manager/queue.py` (only its caller `deregister_worker_route` and its test
are under src).  Spec section 3: removed on explicit deregistration. -/
def deregister_worker (st : Store) (workerId : String) (ok : Bool) :
    Store × Except QueueError Unit :=
  if ok then
    ({ st with workers := eraseWorker st.workers workerId }, .ok ())
  else
    (st, .error (.queueUnavailable "Failed to deregister worker"))

/-- Modelled from the spec: `JobQueue.list_workers` is absent from
`src/manager/queue.py` (only its caller `list_workers_route` and its test are
under src).  Spec section 4.1: returns the currently-registered worker
records; never mutates. -/
def list_workers (st : Store) (ok : Bool) : Except QueueError (List WorkerRecord) :=
  if ok then .ok (st.workers.map (fun p => p.2)) else
    .error (.queueUnavailable "Failed to list workers")

/-- Python `a or b` on optional string values, with string truthiness
(`None` and the empty string are falsy). -/
def pyOrStr (a b : Option String) : Option String :=
  match a with
  | none => b
  | some s => if s = "" then b else some s

/-- Dict read on a possibly-null-valued dict (`metadata.get(k)`); a stored
null and an absent key are both `None`. -/
def lookupMeta (m : MetaObj) (k : String) : Option String :=
  (m.find? (fun p => p.1 = k)).bind (fun p => p.2)

/-- Dict write (`metadata.update` entry) on a possibly-null-valued dict. -/
def dictSetMeta (m : MetaObj) (k : String) (v : Option String) : MetaObj :=
  m.filter (fun p => p.1 ≠ k) ++ [(k, v)]

/-- JSON body of a register/deregister request, as read by the routes. -/
structure RegisterPayload where
  worker_id : Option String
  hostname : Option String
  model : Option String
  metadata : Option MetaObj
deriving DecidableEq, Repr

/-- Metadata dict stored by `register_worker_route`: the body metadata (or an
empty dict) updated with the resolved `hostname` (body field, metadata entry,
or remote address, first truthy), the `User-Agent` header, and the resolved
`model` (body field or metadata entry). -/
def mergedRegisterMeta (p : RegisterPayload) (userAgent remoteAddr : Option String) :
    MetaObj :=
  let meta0 : MetaObj := p.metadata.getD []
  let hostname := pyOrStr (pyOrStr p.hostname (lookupMeta meta0 "hostname")) remoteAddr
  let modelName := pyOrStr p.model (lookupMeta meta0 "model")
  dictSetMeta (dictSetMeta (dictSetMeta meta0
    "hostname" hostname) "user_agent" userAgent) "model" modelName

/-- Embedding of `register_worker_route` (`src/manager/server.py`): the worker
id comes from the body or the `X-Worker-ID` header and must be truthy; the
stored metadata is the merged dict above; a queue error maps to 500, success
to 201.  The `_require_json` guard is not modelled: the payload argument
stands for an already-parsed JSON object body. -/
def register_worker_route (st : Store) (p : RegisterPayload)
    (headerWid userAgent remoteAddr : Option String) (now : ℚ) (ok : Bool) :
    Store × ℕ :=
  match truthyId (pyOrStr p.worker_id headerWid) with
  | none => (st, 400)
  | some wid =>
    match register_worker st wid (mergedRegisterMeta p userAgent remoteAddr) now ok with
    | (st1, .ok _) => (st1, 201)
    | (st1, .error _) => (st1, 500)

/-- Embedding of `deregister_worker_route` (`src/manager/server.py`). -/
def deregister_worker_route (st : Store) (p : RegisterPayload)
    (headerWid : Option String) (ok : Bool) : Store × ℕ :=
  match truthyId (pyOrStr p.worker_id headerWid) with
  | none => (st, 400)
  | some wid =>
    match deregister_worker st wid ok with
    | (st1, .ok _) => (st1, 200)
    | (st1, .error _) => (st1, 500)

/-- Embedding of `list_workers_route` (`src/manager/server.py`): serializes
each record (the serialization keeps `worker_id`, `metadata`,
`registered_at`, so it is the identity on the model); a queue error maps to
500, success to 200 with the list. -/
def list_workers_route (st : Store) (ok : Bool) : ℕ × List WorkerRecord :=
  match list_workers st ok with
  | .ok ws => (200, ws)
  | .error _ => (500, [])

/-! Sample values used by witnesses and counterexamples. -/

/-- Sample manager configuration (the defaults of `AppConfig.from_env`). -/
def cfg0 : AppConfig :=
  { job_ttl_seconds := 3600, redis_block_timeout := 5 }

/-- Sample chat message. -/
def msg0 : Message :=
  { role := "user", content := "Hello, Cerebro!" }

/-- Empty Redis store. -/
def emptyStore : Store :=
  { jobs := [], pending := [], processing := [], workers := [] }

/-! General lemmas about the store primitives. -/

theorem lookupL_setJob (jobs : List (String × JobRecord × ℕ)) (k : String)
    (r : JobRecord) (ttl : ℕ) (k' : String) :
    lookupL (setJob jobs k r ttl) k' = if k' = k then some r else lookupL jobs k' := by
  induction jobs with
  | nil =>
    by_cases h : k' = k
    · subst h
      simp [setJob, lookupL]
    · have h2 : ¬k = k' := fun hh => h hh.symm
      simp [setJob, lookupL, h, h2]
  | cons a tl ih =>
    simp only [setJob, List.filter_cons] at ih ⊢
    simp only [decide_not] at ih ⊢
    by_cases hk : a.1 = k
    · rw [if_neg (by simp [hk]), ih]
      by_cases h' : k' = k
      · simp [h']
      · have ha : ¬a.1 = k' := by
          rw [hk]
          exact fun hh => h' hh.symm
        simp [lookupL, h', ha]
    · rw [if_pos (by simp [hk]), List.cons_append]
      by_cases h' : a.1 = k'
      · have hkk : ¬k' = k := fun hh => hk (h'.trans hh)
        simp [lookupL, h', hkk]
      · simp [lookupL, h', ih]

theorem truthyId_ne_empty {o : Option String} {w : String}
    (h : truthyId o = some w) : w ≠ "" := by
  cases o with
  | none => simp [truthyId] at h
  | some s =>
    by_cases hs : s = "" <;> simp [truthyId, hs] at h
    subst h
    exact hs

theorem truthyId_some {w : String} (h : w ≠ "") : truthyId (some w) = some w := by
  simp [truthyId, h]

/-! Claim C5 — submit validation, record construction, atomicity. -/

/-- Expected record stored by a successful submit. -/
def queuedRecord (jobId : String) (ms : List Message) (metadata : Option JsonObj)
    (now : ℚ) : JobRecord :=
  { job_id := jobId, status := .queued, messages := ms,
    created_at := now, updated_at := now, metadata := metadata,
    started_at := none, completed_at := none, result := none, error := none }

/-- Expected store after a successful submit: the record written under the job
key with the configured TTL and the id appended to the pending list. -/
def submittedStore (cfg : AppConfig) (st : Store) (ms : List Message)
    (md : Option JsonObj) (jobId : String) (now : ℚ) : Store :=
  { st with
    jobs := setJob st.jobs jobId (queuedRecord jobId ms md now) cfg.job_ttl_seconds,
    pending := st.pending ++ [jobId] }

/-- C5: submit rejects a `messages` argument that is empty or not a list with
the validation error before touching the store; on a nonempty list it builds
the queued record with `created_at = updated_at = now` and (in one atomic
pipeline) writes it with the configured TTL and appends the id to the pending
list; a pipeline failure leaves the store unchanged and surfaces as the
store-unavailable error. -/
theorem c5_submit_validation_and_atomicity :
    (∀ (cfg : AppConfig) (st : Store) (md : Option JsonObj) (jobId : String)
       (now : ℚ) (pok : Bool),
      submit_job cfg st .notAList md jobId now pok
        = (st, .error (.invalidInput "`messages` must be a non-empty list.")) ∧
      submit_job cfg st (.ofList []) md jobId now pok
        = (st, .error (.invalidInput "`messages` must be a non-empty list."))) ∧
    (∀ (cfg : AppConfig) (st : Store) (ms : List Message) (md : Option JsonObj)
       (jobId : String) (now : ℚ),
      ms ≠ [] →
      submit_job cfg st (.ofList ms) md jobId now true
        = (submittedStore cfg st ms md jobId now, .ok jobId)) ∧
    (∀ (cfg : AppConfig) (st : Store) (ms : List Message) (md : Option JsonObj)
       (jobId : String) (now : ℚ),
      ms ≠ [] →
      submit_job cfg st (.ofList ms) md jobId now false
        = (st, .error (.queueUnavailable "Failed to submit job"))) := by
  refine ⟨fun cfg st md jobId now pok => ⟨rfl, rfl⟩, ?_, ?_⟩
  · intro cfg st ms md jobId now hms
    cases ms with
    | nil => exact absurd rfl hms
    | cons m tl => rfl
  · intro cfg st ms md jobId now hms
    cases ms with
    | nil => exact absurd rfl hms
    | cons m tl => rfl

/-- C5 witness: the parts of `c5_submit_validation_and_atomicity` that carry a
hypothesis, applied at a concrete one-message submission. -/
theorem c5_witness :
    ([msg0] ≠ ([] : List Message)) ∧
    submit_job cfg0 emptyStore (.ofList [msg0]) none "job-1" 100 true
      = (submittedStore cfg0 emptyStore [msg0] none "job-1" 100, .ok "job-1") ∧
    submit_job cfg0 emptyStore (.ofList [msg0]) none "job-1" 100 false
      = (emptyStore, .error (.queueUnavailable "Failed to submit job")) :=
  ⟨by decide,
   c5_submit_validation_and_atomicity.2.1 cfg0 emptyStore [msg0] none "job-1" 100 (by decide),
   c5_submit_validation_and_atomicity.2.2 cfg0 emptyStore [msg0] none "job-1" 100 (by decide)⟩

/-! Claims C7 and C10 — completion failure cases. -/

/-- C7: complete on a job id with no stored record fails with the not-found
error, and complete with a non-terminal status fails with the invalid-status
error; in both cases the store (hence every job record) is unchanged. -/
theorem c7_complete_failure_cases :
    (∀ (cfg : AppConfig) (st : Store) (jid : String) (s : JobStatus)
       (r : Option JsonObj) (e : Option String) (now : ℚ) (saveOk sremOk : Bool),
      isTerminalStatus s = true → lookupJob st jid = none →
      complete_job cfg st jid s r e now true saveOk sremOk
        = (st, .error (.notFound ("Job " ++ jid ++ " not found")))) ∧
    (∀ (cfg : AppConfig) (st : Store) (jid : String) (s : JobStatus)
       (r : Option JsonObj) (e : Option String) (now : ℚ) (loadOk saveOk sremOk : Bool),
      isTerminalStatus s = false →
      complete_job cfg st jid s r e now loadOk saveOk sremOk
        = (st, .error (.invalidStatus "Completion requires completed or failed status."))) := by
  constructor
  · intro cfg st jid s r e now saveOk sremOk hs hload
    simp [complete_job, hs, hload]
  · intro cfg st jid s r e now loadOk saveOk sremOk hs
    simp [complete_job, hs]

/-- C7 witness: both failure cases of `c7_complete_failure_cases` at concrete
inputs on the empty store. -/
theorem c7_witness :
    (isTerminalStatus .completed = true ∧ lookupJob emptyStore "ghost" = none ∧
      complete_job cfg0 emptyStore "ghost" .completed none none 100 true true true
        = (emptyStore, .error (.notFound ("Job " ++ "ghost" ++ " not found")))) ∧
    (isTerminalStatus .queued = false ∧
      complete_job cfg0 emptyStore "ghost" .queued none none 100 true true true
        = (emptyStore, .error (.invalidStatus "Completion requires completed or failed status."))) :=
  ⟨⟨rfl, rfl,
    c7_complete_failure_cases.1 cfg0 emptyStore "ghost" .completed none none 100 true true rfl rfl⟩,
   ⟨rfl,
    c7_complete_failure_cases.2 cfg0 emptyStore "ghost" .queued none none 100 true true true rfl⟩⟩

/-- C10: the status argument is validated before job existence is checked —
for a job id with no stored record, a complete call with a non-terminal
status yields the invalid-status error, not the not-found error. -/
theorem c10_status_validated_before_existence :
    ∀ (cfg : AppConfig) (st : Store) (jid : String) (s : JobStatus)
      (r : Option JsonObj) (e : Option String) (now : ℚ) (loadOk saveOk sremOk : Bool),
      lookupJob st jid = none → isTerminalStatus s = false →
      complete_job cfg st jid s r e now loadOk saveOk sremOk
        = (st, .error (.invalidStatus "Completion requires completed or failed status.")) := by
  intro cfg st jid s r e now loadOk saveOk sremOk _ hs
  simp [complete_job, hs]

/-- C10 witness: a processing-status completion of an unknown job id on the
empty store is rejected as invalid status. -/
theorem c10_witness :
    lookupJob emptyStore "ghost" = none ∧ isTerminalStatus .processing = false ∧
    complete_job cfg0 emptyStore "ghost" .processing none none 100 true true true
      = (emptyStore, .error (.invalidStatus "Completion requires completed or failed status.")) :=
  ⟨rfl, rfl,
   c10_status_validated_before_existence cfg0 emptyStore "ghost" .processing none none 100
     true true true rfl rfl⟩

/-! Claim C6 — dequeue behavior. -/

/-- Record as rewritten by a successful dequeue. -/
def processedRecord (job : JobRecord) (now : ℚ) : JobRecord :=
  { job with status := .processing, started_at := some now, updated_at := now }

/-- Store after a successful dequeue of `jid`: head popped, the processed
record persisted, and (when the `SADD` succeeded) the id in the processing
set. -/
def dequeuedStore (cfg : AppConfig) (st : Store) (jid : String) (rest : List String)
    (job : JobRecord) (now : ℚ) (saddOk : Bool) : Store :=
  let st2 : Store :=
    { st with
      pending := rest,
      jobs := setJob st.jobs jid (processedRecord job now) cfg.job_ttl_seconds }
  if saddOk then { st2 with processing := saddList st2.processing jid } else st2

/-- C6: when the popped id has no record, dequeue returns none without
raising (the pop itself is kept); when a record is found, dequeue rewrites it
to `status = processing` with `started_at = updated_at = now`, persists it,
adds the id to the processing set only on a best-effort basis (a failed
`SADD` still yields the same successful return), and returns the reduced view
holding exactly `job_id`, `messages`, `metadata`. -/
theorem c6_dequeue_missing_and_found :
    (∀ (cfg : AppConfig) (st : Store) (now : ℚ) (jid : String) (rest : List String)
       (saveOk saddOk : Bool),
      st.pending = jid :: rest → lookupJob st jid = none →
      get_next_job cfg st now true true saveOk saddOk
        = ({ st with pending := rest }, .ok none)) ∧
    (∀ (cfg : AppConfig) (st : Store) (now : ℚ) (jid : String) (rest : List String)
       (job : JobRecord) (saddOk : Bool),
      st.pending = jid :: rest → lookupJob st jid = some job →
      get_next_job cfg st now true true true saddOk
        = (dequeuedStore cfg st jid rest job now saddOk,
           .ok (some { job_id := job.job_id, messages := job.messages,
                       metadata := job.metadata }))) := by
  constructor
  · intro cfg st now jid rest saveOk saddOk hp hj
    obtain ⟨jobs, pending, processing, workers⟩ := st
    simp only [lookupJob] at hj
    subst hp
    simp [get_next_job, lookupJob, hj]
  · intro cfg st now jid rest job saddOk hp hj
    obtain ⟨jobs, pending, processing, workers⟩ := st
    simp only [lookupJob] at hj
    subst hp
    cases saddOk <;>
      simp [get_next_job, lookupJob, hj, dequeuedStore, processedRecord]

/-- Concrete store with one queued job under key `j1`, pending `[j1]`. -/
def storeQueued : Store :=
  { jobs := [("j1", queuedRecord "j1" [msg0] none 100, 3600)],
    pending := ["j1"], processing := [], workers := [] }

/-- Concrete store whose pending list names a job with no record. -/
def storeDangling : Store :=
  { jobs := [], pending := ["ghost"], processing := [], workers := [] }

/-- C6 witness: both branches of `c6_dequeue_missing_and_found` at concrete
stores, the found branch once with the `SADD` succeeding and once failing. -/
theorem c6_witness :
    (storeDangling.pending = "ghost" :: [] ∧ lookupJob storeDangling "ghost" = none ∧
      get_next_job cfg0 storeDangling 120 true true true true
        = ({ storeDangling with pending := [] }, .ok none)) ∧
    (storeQueued.pending = "j1" :: [] ∧
      lookupJob storeQueued "j1" = some (queuedRecord "j1" [msg0] none 100) ∧
      get_next_job cfg0 storeQueued 120 true true true true
        = (dequeuedStore cfg0 storeQueued "j1" [] (queuedRecord "j1" [msg0] none 100) 120 true,
           .ok (some { job_id := (queuedRecord "j1" [msg0] none 100).job_id,
                       messages := (queuedRecord "j1" [msg0] none 100).messages,
                       metadata := (queuedRecord "j1" [msg0] none 100).metadata })) ∧
      get_next_job cfg0 storeQueued 120 true true true false
        = (dequeuedStore cfg0 storeQueued "j1" [] (queuedRecord "j1" [msg0] none 100) 120 false,
           .ok (some { job_id := (queuedRecord "j1" [msg0] none 100).job_id,
                       messages := (queuedRecord "j1" [msg0] none 100).messages,
                       metadata := (queuedRecord "j1" [msg0] none 100).metadata }))) :=
  ⟨⟨rfl, rfl,
    c6_dequeue_missing_and_found.1 cfg0 storeDangling 120 "ghost" [] true true rfl rfl⟩,
   ⟨rfl, by decide,
    c6_dequeue_missing_and_found.2 cfg0 storeQueued 120 "j1" []
      (queuedRecord "j1" [msg0] none 100) true rfl (by decide),
    c6_dequeue_missing_and_found.2 cfg0 storeQueued 120 "j1" []
      (queuedRecord "j1" [msg0] none 100) false rfl (by decide)⟩⟩

/-! Claim C3 — terminal states are in fact not protected (corrected). -/

/-- Record as rewritten by `complete_job` when it finds a record. -/
def completedRecord (job : JobRecord) (s : JobStatus) (r : Option JsonObj)
    (e : Option String) (now : ℚ) : JobRecord :=
  { job with
    status := s,
    completed_at := some now,
    updated_at := now,
    result := r,
    error := e }

/-- Concrete completed job record. -/
def jobDone : JobRecord :=
  { job_id := "j1", status := .completed, messages := [msg0],
    created_at := 10, updated_at := 50, metadata := none,
    started_at := some 20, completed_at := some 50,
    result := some [("message", "Done")], error := none }

/-- Concrete store holding only the completed job `j1`. -/
def storeDone : Store :=
  { jobs := [("j1", jobDone, 3600)], pending := [], processing := [], workers := [] }

/-- C3 counterexample: a second complete call on the already-completed job
`j1` succeeds and mutates the record — status, result, error, and both
timestamps change, and the mutated record is what the store then holds. -/
theorem c3_counterexample :
    (complete_job cfg0 storeDone "j1" .failed none (some "boom") 200 true true true).2
      = .ok (completedRecord jobDone .failed none (some "boom") 200) ∧
    (completedRecord jobDone .failed none (some "boom") 200).status ≠ jobDone.status ∧
    (completedRecord jobDone .failed none (some "boom") 200).updated_at ≠ jobDone.updated_at ∧
    (completedRecord jobDone .failed none (some "boom") 200).completed_at ≠ jobDone.completed_at ∧
    lookupJob (complete_job cfg0 storeDone "j1" .failed none (some "boom") 200 true true true).1 "j1"
      = some (completedRecord jobDone .failed none (some "boom") 200) := by
  refine ⟨rfl, by decide, by decide, by decide, by decide⟩

/-- C3 amended: a JobRecord in a terminal status is not protected from
further transitions — every subsequent complete call with a valid terminal
status on that job id succeeds and overwrites status, result, error, and
timestamps (`completed_at = updated_at = now`), both in the returned record
and in the store. -/
theorem c3_amended_terminal_records_overwritten :
    ∀ (cfg : AppConfig) (st : Store) (jid : String) (job : JobRecord) (s : JobStatus)
      (r : Option JsonObj) (e : Option String) (now : ℚ) (sremOk : Bool),
      lookupJob st jid = some job → isTerminalStatus job.status = true →
      isTerminalStatus s = true →
      (complete_job cfg st jid s r e now true true sremOk).2
        = .ok (completedRecord job s r e now) ∧
      lookupJob (complete_job cfg st jid s r e now true true sremOk).1 jid
        = some (completedRecord job s r e now) := by
  intro cfg st jid job s r e now sremOk hj _ hs
  simp only [lookupJob] at hj
  cases sremOk <;>
    simp [complete_job, hs, hj, completedRecord, lookupJob, lookupL_setJob]

/-- C3 amended witness: the overwrite theorem applied to the concrete
completed job `j1`. -/
theorem c3_amended_witness :
    (lookupJob storeDone "j1" = some jobDone ∧
     isTerminalStatus jobDone.status = true ∧ isTerminalStatus .failed = true) ∧
    ((complete_job cfg0 storeDone "j1" .failed none (some "boom") 200 true true true).2
        = .ok (completedRecord jobDone .failed none (some "boom") 200) ∧
     lookupJob (complete_job cfg0 storeDone "j1" .failed none (some "boom") 200 true true true).1 "j1"
        = some (completedRecord jobDone .failed none (some "boom") 200)) :=
  ⟨⟨by decide, by decide, rfl⟩,
   c3_amended_terminal_records_overwritten cfg0 storeDone "j1" jobDone .failed none
     (some "boom") 200 true (by decide) (by decide) rfl⟩

/-! Claim C9 — admission control fails open and back-pressures locally. -/

/-- C9: when the GPU utilization cannot be measured (tool missing or nonzero
exit, or unparseable output) the admission check allows polling; when the
measured maximum utilization strictly exceeds the threshold, the loop
iteration is the GPU-busy sleep of exactly one poll interval, whatever the
fetch or backend environment would have answered — so no fetch attempt is
made that iteration.  Stated for both `WorkerCore._loop` (with resource
checking enabled) and `CerebroWorker.run`. -/
theorem c9_admission_fail_open_and_backpressure :
    (∀ threshold : ℚ, canUseGpu .unavailable threshold = true ∧
       canUseGpu .unparseable threshold = true) ∧
    (∀ (threshold pollInterval v : ℚ) (vs : List ℚ) (fetched : Option FetchedJob)
       (b : BackendResult),
      vs.foldl max v > threshold →
      loopIterCore true threshold pollInterval (.values (v :: vs)) fetched b
        = .gpuBusy pollInterval ∧
      loopIterCLI threshold pollInterval (.values (v :: vs)) fetched b
        = .gpuBusy pollInterval) := by
  refine ⟨fun threshold => ⟨rfl, rfl⟩, ?_⟩
  intro threshold pollInterval v vs fetched b h
  have hc : canUseGpu (.values (v :: vs)) threshold = false := by
    simp [canUseGpu, h]
  exact ⟨by simp [loopIterCore, hc], by simp [loopIterCLI, hc]⟩

/-- C9 witness: one GPU at 50 percent against a 30 percent threshold makes
both loops sleep one poll interval without fetching. -/
theorem c9_witness :
    (([] : List ℚ).foldl max 50 > 30) ∧
    loopIterCore true 30 2 (.values [50]) none (.ok .badJson) = .gpuBusy 2 ∧
    loopIterCLI 30 2 (.values [50]) none (.ok .badJson) = .gpuBusy 2 :=
  ⟨by decide,
   (c9_admission_fail_open_and_backpressure.2 30 2 50 [] none (.ok .badJson) (by decide)).1,
   (c9_admission_fail_open_and_backpressure.2 30 2 50 [] none (.ok .badJson) (by decide)).2⟩

/-! Claim C1 — backend failures are routed to failure reporting (corrected:
this holds for the `WorkerCore` loop; the `CerebroWorker` loop routes
error-carrying results through the success path). -/

/-- Backend outcomes the claim calls a failed call: a network/HTTP-status
error (with a nonempty diagnostic string) or a malformed response body. -/
def BadBackend (b : BackendResult) : Prop :=
  (∃ m, b = .reqError m ∧ m ≠ "") ∨ b = .ok .badJson ∨ b = .ok .noMessageKey

/-- Concrete well-formed job used by the C1 counterexample. -/
def jobC1 : FetchedJob :=
  { jobId := some "abc123",
    messages := .ofList [{ role := "user", content := "Fun fact?" }] }

/-- C1 counterexample: in the `CerebroWorker.run` loop of
`src/worker/worker.py`, a backend call that fails with an HTTP 404 produces
the error-carrying result payload, and the loop reports it through the
success path (a complete call with status completed), not the
failure-reporting path. -/
theorem c1_counterexample :
    loopIterCLI 30 2 .unavailable (some jobC1)
        (.reqError "404 Client Error: Not Found for url")
      = .reportSuccess "abc123" (.errDict "404 Client Error: Not Found for url") := by
  rfl

/-- C1 amended: in the `WorkerCore._loop` of `src/worker/worker_engine.py`,
every accepted job whose backend call fails with a network error or returns a
malformed response is routed to the failure-reporting path with a nonempty
error diagnostic — never the success path. -/
theorem c1_core_error_results_reported_failed :
    ∀ (checkGpu : Bool) (threshold pollInterval : ℚ) (gpu : GpuReading)
      (job : FetchedJob) (jid : String) (b : BackendResult),
      canUseGpu gpu threshold = true →
      truthyId job.jobId = some jid →
      (∃ m ms, job.messages = .ofList (m :: ms)) →
      BadBackend b →
      ∃ e, e ≠ "" ∧
        loopIterCore checkGpu threshold pollInterval gpu (some job) b
          = .reportFailure jid e := by
  intro checkGpu threshold pollInterval gpu job jid b hgpu hjid hms hb
  obtain ⟨m, ms, hmsgs⟩ := hms
  rcases hb with ⟨msg, rfl, hne⟩ | rfl | rfl
  · exact ⟨msg, hne, by
      simp [loopIterCore, hgpu, hjid, processJob, hmsgs, truthyError, getErrorVal, hne]⟩
  · refine ⟨"Malformed response from Ollama.", by decide, ?_⟩
    simp [loopIterCore, hgpu, hjid, processJob, hmsgs, truthyError, getErrorVal]
  · refine ⟨"Malformed response from Ollama.", by decide, ?_⟩
    simp [loopIterCore, hgpu, hjid, processJob, hmsgs, truthyError, getErrorVal]

/-- C1 witness: the `WorkerCore` loop applied to the same 404 scenario as the
counterexample reports failure. -/
theorem c1_witness :
    (canUseGpu .unavailable 30 = true ∧
     truthyId jobC1.jobId = some "abc123" ∧
     (∃ m ms, jobC1.messages = .ofList (m :: ms)) ∧
     BadBackend (.reqError "404 Client Error: Not Found for url")) ∧
    (∃ e, e ≠ "" ∧
      loopIterCore true 30 2 .unavailable (some jobC1)
          (.reqError "404 Client Error: Not Found for url")
        = .reportFailure "abc123" e) :=
  ⟨⟨rfl, rfl, ⟨{ role := "user", content := "Fun fact?" }, [], rfl⟩,
    Or.inl ⟨"404 Client Error: Not Found for url", rfl, by decide⟩⟩,
   c1_core_error_results_reported_failed true 30 2 .unavailable jobC1 "abc123"
     (.reqError "404 Client Error: Not Found for url") rfl rfl
     ⟨{ role := "user", content := "Fun fact?" }, [], rfl⟩
     (Or.inl ⟨"404 Client Error: Not Found for url", rfl, by decide⟩)⟩

/-! Claim C8 — fetch retry with exponential backoff (corrected: the first
delay is 1 even when the configured maximum backoff is below 1). -/

theorem delaysFrom_le (k : ℕ) : ∀ (b m : ℚ), b ≤ m → ∀ d ∈ delaysFrom k b m, d ≤ m := by
  induction k with
  | zero =>
    intro b m _ d hd
    simp [delaysFrom] at hd
  | succ n ih =>
    intro b m hb d hd
    simp only [delaysFrom, List.mem_cons] at hd
    rcases hd with rfl | hd
    · exact hb
    · exact ih _ m (min_le_right _ _) d hd

theorem delaysFrom_chain : ∀ (k : ℕ) (b m : ℚ),
    List.Chain' (fun a c => c = min (a * 2) m) (delaysFrom k b m)
  | 0, b, m => by simp [delaysFrom]
  | 1, b, m => by simp [delaysFrom]
  | (k + 2), b, m => by
    have h := delaysFrom_chain (k + 1) (min (b * 2) m) m
    rw [show delaysFrom (k + 2) b m = b :: delaysFrom (k + 1) (min (b * 2) m) m from rfl]
    rw [show delaysFrom (k + 1) (min (b * 2) m) m
          = min (b * 2) m :: delaysFrom k (min (min (b * 2) m * 2) m) m from rfl] at h ⊢
    exact List.chain'_cons.mpr ⟨rfl, h⟩

theorem fetchRetrySteps_errs_then_ok : ∀ (errs : List String) (b m : ℚ)
    (j : Option FetchedJob),
    fetchRetrySteps (errs.map .netErr ++ [.ok j]) b m
      = (delaysFrom errs.length b m, errs.length + 1, some j) := by
  intro errs
  induction errs with
  | nil =>
    intro b m j
    simp [fetchRetrySteps, delaysFrom]
  | cons e tl ih =>
    intro b m j
    simp [fetchRetrySteps, delaysFrom, ih]

theorem fetchRetrySteps_all_errs : ∀ (errs : List String) (b m : ℚ),
    fetchRetrySteps (errs.map .netErr) b m
      = (delaysFrom errs.length b m, errs.length, none) := by
  intro errs
  induction errs with
  | nil =>
    intro b m
    simp [fetchRetrySteps, delaysFrom]
  | cons e tl ih =>
    intro b m
    simp [fetchRetrySteps, delaysFrom, ih]

/-- C8 counterexample: with the configured maximum backoff set to 1/2, a
single network failure before a successful attempt produces an inter-attempt
delay of 1 time unit, which exceeds the configured maximum — so not every
delay is capped at the configured maximum backoff. -/
theorem c8_counterexample :
    fetchJobWithRetry [.netErr "connection refused", .ok none] (1 / 2)
      = ([1], 2, some none) ∧
    ¬((1 : ℚ) ≤ 1 / 2) := by
  exact ⟨rfl, by norm_num⟩

/-- C8 amended: the fetch retry loop retries network failures indefinitely —
for any run of failures followed by a response it issues one attempt per
outcome and returns the response, and for failures with no response it ends
only by cancellation; the first inter-attempt delay is exactly 1 time unit
(even when the configured maximum backoff is smaller), each subsequent delay
is the double of its predecessor capped at the configured maximum, and when
the maximum is at least 1 every delay is bounded by it; in particular a fetch
that fails twice then succeeds produces exactly three attempts with delays 1
and 2 whenever the maximum backoff is at least 2. -/
theorem c8_fetch_retry_backoff :
    (∀ (errs : List String) (j : Option FetchedJob) (m : ℚ),
      fetchJobWithRetry (errs.map .netErr ++ [.ok j]) m
        = (delaysFrom errs.length 1 m, errs.length + 1, some j)) ∧
    (∀ (errs : List String) (m : ℚ),
      fetchJobWithRetry (errs.map .netErr) m
        = (delaysFrom errs.length 1 m, errs.length, none)) ∧
    (∀ (k : ℕ) (m : ℚ), k ≠ 0 → (delaysFrom k 1 m).head? = some 1) ∧
    (∀ (k : ℕ) (m : ℚ),
      List.Chain' (fun a c => c = min (a * 2) m) (delaysFrom k 1 m)) ∧
    (∀ (k : ℕ) (m : ℚ), 1 ≤ m → ∀ d ∈ delaysFrom k 1 m, d ≤ m) ∧
    (∀ (e1 e2 : String) (j : Option FetchedJob) (m : ℚ), 2 ≤ m →
      fetchJobWithRetry [.netErr e1, .netErr e2, .ok j] m = ([1, 2], 3, some j)) := by
  refine ⟨fun errs j m => fetchRetrySteps_errs_then_ok errs 1 m j,
          fun errs m => fetchRetrySteps_all_errs errs 1 m,
          ?_, fun k m => delaysFrom_chain k 1 m, fun k m hm => delaysFrom_le k 1 m hm, ?_⟩
  · intro k m hk
    cases k with
    | zero => exact absurd rfl hk
    | succ n => rfl
  · intro e1 e2 j m hm
    have h2 : min ((1 : ℚ) * 2) m = 2 := by
      rw [one_mul]
      exact min_eq_left hm
    simp [fetchJobWithRetry, fetchRetrySteps, h2, hm]

/-- C8 witness: the hypothesis-bearing parts of `c8_fetch_retry_backoff` at
the default maximum backoff of 30: the first delay of a failing run is 1,
every delay is at most 30, and the fails-twice scenario gives three attempts
with delays 1 and 2. -/
theorem c8_witness :
    ((3 : ℕ) ≠ 0 ∧ (delaysFrom 3 1 30).head? = some 1) ∧
    ((1 : ℚ) ≤ 30 ∧ ∀ d ∈ delaysFrom 5 1 30, d ≤ 30) ∧
    ((2 : ℚ) ≤ 30 ∧
      fetchJobWithRetry [.netErr "timeout", .netErr "timeout", .ok none] 30
        = ([1, 2], 3, some none)) :=
  ⟨⟨by decide, c8_fetch_retry_backoff.2.2.1 3 30 (by decide)⟩,
   ⟨by decide, c8_fetch_retry_backoff.2.2.2.2.1 5 30 (by decide)⟩,
   ⟨by decide, c8_fetch_retry_backoff.2.2.2.2.2 "timeout" "timeout" none 30 (by decide)⟩⟩

/-! Claim C4 — strict FIFO ordering. -/

/-- One successful submit call (fault-free store), keeping the store. -/
def submitOne (cfg : AppConfig) (st : Store)
    (x : String × Option JsonObj × List Message) (now : ℚ) : Store :=
  (submit_job cfg st (.ofList x.2.2) x.2.1 x.1 now true).1

/-- A sequence of submit calls, in order. -/
def submitAll (cfg : AppConfig) (st : Store)
    (subs : List (String × Option JsonObj × List Message)) (now : ℚ) : Store :=
  match subs with
  | [] => st
  | x :: rest => submitAll cfg (submitOne cfg st x now) rest now

/-- A sequence of fault-free dequeue calls, collecting the returned views. -/
def dequeueN (cfg : AppConfig) (st : Store) (now : ℚ) :
    ℕ → Store × List (Option JobView)
  | 0 => (st, [])
  | n + 1 =>
    match get_next_job cfg st now true true true true with
    | (st1, .ok v) =>
      let r := dequeueN cfg st1 now n
      (r.1, v :: r.2)
    | (st1, .error _) => (st1, [])

/-- Invariant: every id on the pending list has a stored record whose
`job_id` field is that id. -/
def PendingBacked (st : Store) : Prop :=
  ∀ jid ∈ st.pending, ∃ job, lookupL st.jobs jid = some job ∧ job.job_id = jid

theorem submitOne_pending (cfg : AppConfig) (st : Store)
    (x : String × Option JsonObj × List Message) (now : ℚ) (h : x.2.2 ≠ []) :
    (submitOne cfg st x now).pending = st.pending ++ [x.1] := by
  obtain ⟨jobId, md, ms⟩ := x
  cases ms with
  | nil => exact absurd rfl h
  | cons m tl => rfl

theorem submitOne_lookup (cfg : AppConfig) (st : Store)
    (x : String × Option JsonObj × List Message) (now : ℚ) (h : x.2.2 ≠ [])
    (jid : String) :
    lookupL (submitOne cfg st x now).jobs jid
      = if jid = x.1 then some (queuedRecord x.1 x.2.2 x.2.1 now)
        else lookupL st.jobs jid := by
  obtain ⟨jobId, md, ms⟩ := x
  cases ms with
  | nil => exact absurd rfl h
  | cons m tl => exact lookupL_setJob st.jobs jobId _ cfg.job_ttl_seconds jid

theorem submitOne_backed (cfg : AppConfig) (st : Store)
    (x : String × Option JsonObj × List Message) (now : ℚ) (h : x.2.2 ≠ [])
    (hb : PendingBacked st) : PendingBacked (submitOne cfg st x now) := by
  intro jid hjid
  rw [submitOne_pending cfg st x now h] at hjid
  rw [submitOne_lookup cfg st x now h jid]
  by_cases hj : jid = x.1
  · exact ⟨queuedRecord x.1 x.2.2 x.2.1 now, by simp [hj],
      by simp [queuedRecord, hj]⟩
  · rcases List.mem_append.mp hjid with hmem | hmem
    · obtain ⟨job, hlook, hid⟩ := hb jid hmem
      exact ⟨job, by simp [hj, hlook], hid⟩
    · simp at hmem
      exact absurd hmem hj

theorem submitAll_pending : ∀ (subs : List (String × Option JsonObj × List Message))
    (cfg : AppConfig) (st : Store) (now : ℚ), (∀ x ∈ subs, x.2.2 ≠ []) →
    (submitAll cfg st subs now).pending = st.pending ++ subs.map (fun x => x.1) := by
  intro subs
  induction subs with
  | nil =>
    intro cfg st now _
    simp [submitAll]
  | cons x tl ih =>
    intro cfg st now h
    have hx : x.2.2 ≠ [] := h x (by simp)
    rw [show submitAll cfg st (x :: tl) now
          = submitAll cfg (submitOne cfg st x now) tl now from rfl]
    rw [ih cfg _ now (fun y hy => h y (by simp [hy]))]
    rw [submitOne_pending cfg st x now hx]
    simp

theorem submitAll_backed : ∀ (subs : List (String × Option JsonObj × List Message))
    (cfg : AppConfig) (st : Store) (now : ℚ), (∀ x ∈ subs, x.2.2 ≠ []) →
    PendingBacked st → PendingBacked (submitAll cfg st subs now) := by
  intro subs
  induction subs with
  | nil =>
    intro cfg st now _ hb
    exact hb
  | cons x tl ih =>
    intro cfg st now h hb
    exact ih cfg _ now (fun y hy => h y (by simp [hy]))
      (submitOne_backed cfg st x now (h x (by simp)) hb)

theorem get_next_job_found (cfg : AppConfig) (st : Store) (now : ℚ) (jid : String)
    (rest : List String) (job : JobRecord) (saddOk : Bool)
    (hp : st.pending = jid :: rest) (hj : lookupL st.jobs jid = some job) :
    get_next_job cfg st now true true true saddOk
      = (dequeuedStore cfg st jid rest job now saddOk,
         .ok (some { job_id := job.job_id, messages := job.messages,
                     metadata := job.metadata })) := by
  obtain ⟨jobs, pending, processing, workers⟩ := st
  simp only at hj hp
  subst hp
  cases saddOk <;>
    simp [get_next_job, lookupJob, hj, dequeuedStore, processedRecord]

theorem dequeuedStore_pending (cfg : AppConfig) (st : Store) (jid : String)
    (rest : List String) (job : JobRecord) (now : ℚ) (saddOk : Bool) :
    (dequeuedStore cfg st jid rest job now saddOk).pending = rest := by
  cases saddOk <;> rfl

theorem dequeuedStore_jobs (cfg : AppConfig) (st : Store) (jid : String)
    (rest : List String) (job : JobRecord) (now : ℚ) (saddOk : Bool) :
    (dequeuedStore cfg st jid rest job now saddOk).jobs
      = setJob st.jobs jid (processedRecord job now) cfg.job_ttl_seconds := by
  cases saddOk <;> rfl

theorem dequeueN_fifo (cfg : AppConfig) (now : ℚ) : ∀ (n : ℕ) (st : Store),
    PendingBacked st → st.pending.length = n →
    (dequeueN cfg st now n).2.map (Option.map JobView.job_id)
      = st.pending.map some := by
  intro n
  induction n with
  | zero =>
    intro st _ hlen
    have hp : st.pending = [] := List.length_eq_zero.mp hlen
    simp [dequeueN, hp]
  | succ n ih =>
    intro st hb hlen
    obtain ⟨jid, rest, hp⟩ : ∃ jid rest, st.pending = jid :: rest := by
      cases hpend : st.pending with
      | nil =>
        rw [hpend] at hlen
        simp at hlen
      | cons a b => exact ⟨a, b, rfl⟩
    obtain ⟨job, hlook, hjid⟩ := hb jid (by rw [hp]; exact List.mem_cons_self jid rest)
    have hstep := get_next_job_found cfg st now jid rest job true hp hlook
    have hrest_len : rest.length = n := by
      rw [hp] at hlen
      simpa using hlen
    have hbacked : PendingBacked (dequeuedStore cfg st jid rest job now true) := by
      intro k hk
      rw [dequeuedStore_pending] at hk
      rw [dequeuedStore_jobs, lookupL_setJob]
      by_cases hkj : k = jid
      · exact ⟨processedRecord job now, by simp [hkj],
          by simpa [processedRecord, hkj] using hjid⟩
      · obtain ⟨job2, hl2, hid2⟩ := hb k (by rw [hp]; exact List.mem_cons_of_mem jid hk)
        exact ⟨job2, by simp [hkj, hl2], hid2⟩
    have hpendn : (dequeuedStore cfg st jid rest job now true).pending.length = n := by
      rw [dequeuedStore_pending]
      exact hrest_len
    simp only [dequeueN, hstep]
    rw [hp]
    simp [ih _ hbacked hpendn, dequeuedStore_pending, hjid]

/-- C4: queue ordering is strict FIFO — submit appends the id to the tail of
the pending list, dequeue removes from its head, and a sequence of N submits
followed by N dequeues (no interleaved operations, starting from an empty
pending list) returns the N job ids in exactly submission order. -/
theorem c4_fifo_order :
    (∀ (cfg : AppConfig) (st : Store) (x : String × Option JsonObj × List Message)
       (now : ℚ), x.2.2 ≠ [] →
      (submitOne cfg st x now).pending = st.pending ++ [x.1]) ∧
    (∀ (cfg : AppConfig) (st : Store) (now : ℚ) (jid : String) (rest : List String)
       (job : JobRecord) (saddOk : Bool),
      st.pending = jid :: rest → lookupL st.jobs jid = some job →
      (get_next_job cfg st now true true true saddOk).1.pending = rest) ∧
    (∀ (cfg : AppConfig) (st : Store)
       (subs : List (String × Option JsonObj × List Message)) (now : ℚ),
      st.pending = [] → (∀ x ∈ subs, x.2.2 ≠ []) →
      (dequeueN cfg (submitAll cfg st subs now) now subs.length).2.map
          (Option.map JobView.job_id)
        = subs.map (fun x => some x.1)) := by
  refine ⟨submitOne_pending, ?_, ?_⟩
  · intro cfg st now jid rest job saddOk hp hj
    rw [get_next_job_found cfg st now jid rest job saddOk hp hj]
    exact dequeuedStore_pending cfg st jid rest job now saddOk
  · intro cfg st subs now hpend hne
    have hb : PendingBacked st := by
      intro jid hjid
      rw [hpend] at hjid
      exact absurd hjid (List.not_mem_nil jid)
    have hb2 := submitAll_backed subs cfg st now hne hb
    have hlen : (submitAll cfg st subs now).pending.length = subs.length := by
      rw [submitAll_pending subs cfg st now hne, hpend]
      simp
    rw [dequeueN_fifo cfg now subs.length _ hb2 hlen]
    rw [submitAll_pending subs cfg st now hne, hpend]
    simp

/-- Concrete two-submission sequence for the C4 witness. -/
def subsAB : List (String × Option JsonObj × List Message) :=
  [("a", none, [msg0]), ("b", none, [msg0])]

/-- C4 witness: submitting jobs `a` then `b` to the empty store and dequeuing
twice returns `a` then `b`; plus concrete instances of the tail-append and
head-pop parts. -/
theorem c4_witness :
    (([msg0] : List Message) ≠ [] ∧
      (submitOne cfg0 emptyStore ("a", none, [msg0]) 100).pending
        = emptyStore.pending ++ ["a"]) ∧
    (storeQueued.pending = "j1" :: [] ∧
      lookupL storeQueued.jobs "j1" = some (queuedRecord "j1" [msg0] none 100) ∧
      (get_next_job cfg0 storeQueued 120 true true true true).1.pending = []) ∧
    (emptyStore.pending = [] ∧
      (∀ x ∈ subsAB, x.2.2 ≠ ([] : List Message)) ∧
      (dequeueN cfg0 (submitAll cfg0 emptyStore subsAB 100) 100 subsAB.length).2.map
          (Option.map JobView.job_id)
        = subsAB.map (fun x => some x.1)) :=
  ⟨⟨by decide, c4_fifo_order.1 cfg0 emptyStore ("a", none, [msg0]) 100 (by decide)⟩,
   ⟨rfl, by decide,
    c4_fifo_order.2.1 cfg0 storeQueued 120 "j1" [] (queuedRecord "j1" [msg0] none 100)
      true rfl (by decide)⟩,
   ⟨rfl, by decide,
    c4_fifo_order.2.2 cfg0 emptyStore subsAB 100 rfl (by decide)⟩⟩

/-! Claim C2 — worker registry operations and routes. -/

/-- Record stored for a worker by the register route. -/
def registeredWorker (wid : String) (p : RegisterPayload)
    (userAgent remoteAddr : Option String) (now : ℚ) : WorkerRecord :=
  { worker_id := wid, metadata := mergedRegisterMeta p userAgent remoteAddr,
    registered_at := now }

/-- Store after a successful worker registration. -/
def registeredStore (st : Store) (wid : String) (p : RegisterPayload)
    (userAgent remoteAddr : Option String) (now : ℚ) : Store :=
  { st with
    workers := setWorker st.workers wid (registeredWorker wid p userAgent remoteAddr now) }

theorem register_worker_route_ok (st : Store) (p : RegisterPayload)
    (headerWid userAgent remoteAddr : Option String) (now : ℚ) (wid : String)
    (hwid : truthyId (pyOrStr p.worker_id headerWid) = some wid) :
    register_worker_route st p headerWid userAgent remoteAddr now true
      = (registeredStore st wid p userAgent remoteAddr now, 201) := by
  simp [register_worker_route, hwid, register_worker, registeredWorker, registeredStore]

theorem deregister_worker_route_ok (st : Store) (wid : String) (hne : wid ≠ "") :
    deregister_worker_route st
        { worker_id := some wid, hostname := none, model := none, metadata := none }
        none true
      = ({ st with workers := eraseWorker st.workers wid }, 200) := by
  simp [deregister_worker_route, pyOrStr, truthyId, hne, deregister_worker]

theorem keyed_setWorker (ws : List (String × WorkerRecord)) (k : String)
    (w : WorkerRecord) (hkey : ∀ q ∈ ws, q.2.worker_id = q.1)
    (hw : w.worker_id = k) :
    ∀ q ∈ setWorker ws k w, q.2.worker_id = q.1 := by
  intro q hq
  rcases List.mem_append.mp hq with h | h
  · exact hkey q (List.mem_of_mem_filter h)
  · simp at h
    rw [h]
    exact hw

/-- C2: the queue-side worker registry (spec-modelled: these `JobQueue`
methods are absent from src, only their routes and tests are) satisfies
register-then-list shows the worker and deregister removes it, and the HTTP
routes succeed when the store is reachable — register 201, deregister 200,
list 200.  The hypothesis asks that existing registry entries sit under their
own worker id, which every entry written by this registry does. -/
theorem c2_worker_registry :
    ∀ (st : Store) (p : RegisterPayload) (headerWid userAgent remoteAddr : Option String)
      (now : ℚ) (wid : String),
      truthyId (pyOrStr p.worker_id headerWid) = some wid →
      (∀ q ∈ st.workers, q.2.worker_id = q.1) →
      ((register_worker_route st p headerWid userAgent remoteAddr now true).2 = 201 ∧
       (∃ ws, list_workers
            (register_worker_route st p headerWid userAgent remoteAddr now true).1 true
          = .ok ws ∧ ∃ w ∈ ws, w.worker_id = wid) ∧
       (deregister_worker_route
          (register_worker_route st p headerWid userAgent remoteAddr now true).1
          { worker_id := some wid, hostname := none, model := none, metadata := none }
          none true).2 = 200 ∧
       (∀ ws, list_workers
            (deregister_worker_route
              (register_worker_route st p headerWid userAgent remoteAddr now true).1
              { worker_id := some wid, hostname := none, model := none, metadata := none }
              none true).1 true
          = .ok ws → ∀ w ∈ ws, w.worker_id ≠ wid) ∧
       (list_workers_route st true).1 = 200) := by
  intro st p headerWid userAgent remoteAddr now wid hwid hkey
  have hne : wid ≠ "" := truthyId_ne_empty hwid
  have hreg := register_worker_route_ok st p headerWid userAgent remoteAddr now wid hwid
  refine ⟨by rw [hreg], ?_, ?_, ?_, rfl⟩
  · rw [hreg]
    refine ⟨_, rfl, registeredWorker wid p userAgent remoteAddr now, ?_, rfl⟩
    refine List.mem_map.mpr ⟨(wid, registeredWorker wid p userAgent remoteAddr now), ?_, rfl⟩
    simp [setWorker, registeredStore]
  · rw [hreg, deregister_worker_route_ok _ wid hne]
  · rw [hreg, deregister_worker_route_ok _ wid hne]
    intro ws hws w hw
    have hws2 : ws = (eraseWorker
        (setWorker st.workers wid (registeredWorker wid p userAgent remoteAddr now)) wid).map
          (fun q => q.2) := by
      simpa [list_workers, registeredStore] using hws.symm
    rw [hws2] at hw
    obtain ⟨q, hq, hq2⟩ := List.mem_map.mp hw
    have hmem : q ∈ setWorker st.workers wid (registeredWorker wid p userAgent remoteAddr now)
        ∧ q.1 ≠ wid := by
      simpa [eraseWorker, List.mem_filter] using hq
    have hkeyq : q.2.worker_id = q.1 :=
      keyed_setWorker st.workers wid (registeredWorker wid p userAgent remoteAddr now)
        hkey rfl q hmem.1
    rw [← hq2, hkeyq]
    exact hmem.2

/-- Concrete register payload matching the repository test. -/
def payloadABC : RegisterPayload :=
  { worker_id := some "worker-abc", hostname := some "test-host",
    model := none, metadata := none }

/-- C2 witness: registering `worker-abc` on the empty store, listing,
deregistering, and listing again, all through the routes. -/
theorem c2_witness :
    (truthyId (pyOrStr payloadABC.worker_id none) = some "worker-abc" ∧
     (∀ q ∈ emptyStore.workers, q.2.worker_id = q.1)) ∧
    ((register_worker_route emptyStore payloadABC none (some "pytest") (some "127.0.0.1")
        100 true).2 = 201 ∧
     (∃ ws, list_workers
          (register_worker_route emptyStore payloadABC none (some "pytest")
            (some "127.0.0.1") 100 true).1 true
        = .ok ws ∧ ∃ w ∈ ws, w.worker_id = "worker-abc") ∧
     (deregister_worker_route
        (register_worker_route emptyStore payloadABC none (some "pytest")
          (some "127.0.0.1") 100 true).1
        { worker_id := some "worker-abc", hostname := none, model := none, metadata := none }
        none true).2 = 200 ∧
     (∀ ws, list_workers
          (deregister_worker_route
            (register_worker_route emptyStore payloadABC none (some "pytest")
              (some "127.0.0.1") 100 true).1
            { worker_id := some "worker-abc", hostname := none, model := none, metadata := none }
            none true).1 true
        = .ok ws → ∀ w ∈ ws, w.worker_id ≠ "worker-abc") ∧
     (list_workers_route emptyStore true).1 = 200) :=
  ⟨⟨rfl, by decide⟩,
   c2_worker_registry emptyStore payloadABC none (some "pytest") (some "127.0.0.1")
     100 "worker-abc" rfl (by decide)⟩

end Cerebro
